import Mathlib

/-!
Shallow embedding of the AURIN impact-tracking dashboard's data pipeline
(`src/data_loader.py`, `src/streamlit_app.py` and the view components under
`src/components/`), together with proofs of the specification's claims about
it.  DataFrames are modelled as lists of records; pandas operations used by
the code (left merge, `nlargest`, `sort_values`, `groupby`) are modelled by
executable list functions whose semantics follow the pandas documentation of
exactly the calls the source makes.
-/

namespace Aurin

/-! ## Generic stable descending insertion sort

Model for the ordering behaviour of `DataFrame.nlargest(n, col)` (keep =
'first') and `sort_values(by=col, ascending=False)` restricted to rows whose
key is present: a stable sort placing larger keys first. -/

/-- Insert `x` into `l`, walking past elements with a strictly larger key and
stopping at the first element whose key is `≤ key x`; with a right-fold this
yields a stable descending sort (earlier rows come first among equal keys). -/
def insertDescBy {α : Type} (key : α → Int) (x : α) : List α → List α
  | [] => [x]
  | y :: ys => if key x < key y then y :: insertDescBy key x ys else x :: y :: ys

/-- Stable descending insertion sort by an integer key. -/
def insertionSortDescBy {α : Type} (key : α → Int) : List α → List α
  | [] => []
  | x :: xs => insertDescBy key x (insertionSortDescBy key xs)

theorem length_insertDescBy {α : Type} (key : α → Int) (x : α) :
    ∀ l : List α, (insertDescBy key x l).length = l.length + 1 := by
  intro l
  induction l with
  | nil => rfl
  | cons y ys ih =>
    by_cases h : key x < key y <;> simp [insertDescBy, h, ih]

theorem length_insertionSortDescBy {α : Type} (key : α → Int) :
    ∀ l : List α, (insertionSortDescBy key l).length = l.length := by
  intro l
  induction l with
  | nil => rfl
  | cons x xs ih => simp [insertionSortDescBy, length_insertDescBy, ih]

theorem mem_insertDescBy {α : Type} (key : α → Int) (x a : α) :
    ∀ l : List α, a ∈ insertDescBy key x l ↔ a = x ∨ a ∈ l := by
  intro l
  induction l with
  | nil => simp [insertDescBy]
  | cons y ys ih =>
    by_cases h : key x < key y
    · simp only [insertDescBy, if_pos h, List.mem_cons, ih]
      tauto
    · simp [insertDescBy, h]

theorem mem_insertionSortDescBy {α : Type} (key : α → Int) (a : α) :
    ∀ l : List α, a ∈ insertionSortDescBy key l ↔ a ∈ l := by
  intro l
  induction l with
  | nil => simp [insertionSortDescBy]
  | cons x xs ih => simp [insertionSortDescBy, mem_insertDescBy, ih]

theorem pairwise_insertDescBy {α : Type} (key : α → Int) (x : α) :
    ∀ l : List α, List.Pairwise (fun a b => key b ≤ key a) l →
      List.Pairwise (fun a b => key b ≤ key a) (insertDescBy key x l) := by
  intro l
  induction l with
  | nil => intro _; simp [insertDescBy]
  | cons y ys ih =>
    intro hp
    rcases List.pairwise_cons.mp hp with ⟨hy, hys⟩
    by_cases h : key x < key y
    · simp only [insertDescBy, if_pos h]
      refine List.pairwise_cons.mpr ⟨?_, ih hys⟩
      intro b hb
      rcases (mem_insertDescBy key x b ys).mp hb with hbx | hbm
      · subst hbx; exact le_of_lt h
      · exact hy b hbm
    · simp only [insertDescBy, if_neg h]
      refine List.pairwise_cons.mpr ⟨?_, hp⟩
      intro b hb
      rcases List.mem_cons.mp hb with hby | hbm
      · subst hby; exact le_of_not_lt h
      · exact le_trans (hy b hbm) (le_of_not_lt h)

theorem pairwise_insertionSortDescBy {α : Type} (key : α → Int) :
    ∀ l : List α, List.Pairwise (fun a b => key b ≤ key a) (insertionSortDescBy key l) := by
  intro l
  induction l with
  | nil => simp [insertionSortDescBy]
  | cons x xs ih => exact pairwise_insertDescBy key x _ ih

theorem filter_insertDescBy {α : Type} (key : α → Int) (x : α) (v : Int) :
    ∀ l : List α, (insertDescBy key x l).filter (fun a => key a == v) =
      if key x = v then x :: l.filter (fun a => key a == v)
      else l.filter (fun a => key a == v) := by
  intro l
  induction l with
  | nil =>
    by_cases hv : key x = v <;> simp [insertDescBy, hv]
  | cons y ys ih =>
    simp only [insertDescBy]
    by_cases h : key x < key y
    · rw [if_pos h]
      by_cases hv : key x = v
      · have hyv : ¬ key y = v := by omega
        simp [List.filter_cons, hyv, ih, hv]
      · simp [List.filter_cons, ih, hv]
    · rw [if_neg h]
      by_cases hv : key x = v <;> simp [List.filter_cons, hv]

theorem filter_insertionSortDescBy {α : Type} (key : α → Int) (v : Int) :
    ∀ l : List α, (insertionSortDescBy key l).filter (fun a => key a == v) =
      l.filter (fun a => key a == v) := by
  intro l
  induction l with
  | nil => rfl
  | cons x xs ih =>
    by_cases hv : key x = v <;>
      simp [insertionSortDescBy, filter_insertDescBy, hv, ih, List.filter_cons]

/-! ## Credential validation (`src/data_loader.py`, `_validate_api_key`)

Python truthiness of a string is emptiness; `str.strip()` removes leading and
trailing whitespace characters. -/

/-- Whitespace characters as stripped by Python `str.strip()` (ASCII range). -/
def pyIsSpace (c : Char) : Bool :=
  c == ' ' || c == '\t' || c == '\n' || c == '\x0d' || c == '\x0b' || c == '\x0c'

/-- Model of Python `str.strip()`: drop leading and trailing whitespace. -/
def pyStrip (s : String) : String :=
  ⟨((s.toList.dropWhile pyIsSpace).reverse.dropWhile pyIsSpace).reverse⟩

/-- Model of `_validate_api_key` (src/data_loader.py lines 42-54):
`if not api_key or not api_key.strip(): return False` / `return True`. -/
def validate_api_key (api_key : String) : Bool :=
  if api_key.toList.isEmpty || (pyStrip api_key).toList.isEmpty then false else true

theorem dropWhile_eq_nil_of_all {α : Type} (p : α → Bool) :
    ∀ l : List α, l.all p = true → l.dropWhile p = [] := by
  intro l
  induction l with
  | nil => intro _; rfl
  | cons x xs ih =>
    intro h
    simp only [List.all_cons, Bool.and_eq_true] at h
    simp [List.dropWhile_cons, h.1, ih h.2]

theorem pyStrip_of_all_space (s : String) (h : s.toList.all pyIsSpace = true) :
    (pyStrip s).toList = [] := by
  show (((s.toList.dropWhile pyIsSpace).reverse.dropWhile pyIsSpace).reverse : List Char) = []
  rw [dropWhile_eq_nil_of_all pyIsSpace s.toList h]
  rfl

theorem validate_api_key_of_all_space (s : String) (h : s.toList.all pyIsSpace = true) :
    validate_api_key s = false := by
  unfold validate_api_key
  rw [pyStrip_of_all_space s h]
  simp

/-! ## Error classification (`src/data_loader.py` lines 110-118)

On an exception `e` from the collaborator the loader inspects
`str(e).lower()` for the substrings `authentication`/`unauthorized`
(authentication bucket), else `connection`/`timeout` (connectivity bucket),
else reports an unclassified message. -/

/-- Does the first list occur at the start of the second? -/
def leadsList : List Char → List Char → Bool
  | [], _ => true
  | _ :: _, [] => false
  | a :: as, b :: bs => a == b && leadsList as bs

/-- Does the first list occur contiguously anywhere in the second? -/
def segmentInList (needle : List Char) : List Char → Bool
  | [] => leadsList needle []
  | b :: bs => leadsList needle (b :: bs) || segmentInList needle bs

/-- Python `needle in haystack` substring test. -/
def strContains (haystack needle : String) : Bool :=
  segmentInList needle.toList haystack.toList

/-- Model of Python `str.lower()` (ASCII lowering; the messages matched by
the source are ASCII). -/
def pyLower (s : String) : String := ⟨s.toList.map Char.toLower⟩

/-- The three error buckets of the loader's `except` block. -/
inductive ErrClass : Type where
  | auth : ErrClass
  | conn : ErrClass
  | other : ErrClass
deriving DecidableEq, Repr

/-- Classification performed by the `if`/`elif`/`else` chain at
src/data_loader.py lines 112-117 on `error_msg = str(e)`. -/
def classify_error (error_msg : String) : ErrClass :=
  if strContains (pyLower error_msg) "authentication"
      || strContains (pyLower error_msg) "unauthorized" then .auth
  else if strContains (pyLower error_msg) "connection"
      || strContains (pyLower error_msg) "timeout" then .conn
  else .other

/-- The message passed to `st.error` for an exception with message
`error_msg` (src/data_loader.py lines 112-117). -/
def report_error (error_msg : String) : String :=
  match classify_error error_msg with
  | .auth => "❌ Authentication failed. Please check your API key."
  | .conn => "❌ Connection error. Please check your internet connection."
  | .other => "❌ Error loading data: " ++ error_msg

/-! ## Data model

Rows of the five result tables.  Only the columns the claims touch are
modelled; a table also records which of the join-relevant columns the fetch
actually produced (pandas `'col' in df.columns`). -/

/-- One row of the publications table `df_aurin_main` (columns used by the
loader join and the views). `times_cited` is `none` for a missing (NaN)
citation count. -/
structure PubRow : Type where
  id : String
  title : String
  date : String
  times_cited : Option Int
deriving DecidableEq, Repr

/-- One row of the affiliations table `df_affiliations`.  `times_cited` is
meaningful only when the table's `hasTimesCited` flag is set (the column may
be absent before enrichment). -/
structure AffRow : Type where
  pub_id : String
  aff_name : String
  aff_country : String
  researcher_id : String
  times_cited : Option Int
deriving DecidableEq, Repr

/-- The publications table, with column-presence flags for the join keys
(`'id' in df.columns`, `'times_cited' in df.columns`). -/
structure PubTable : Type where
  hasId : Bool
  hasTimesCited : Bool
  rows : List PubRow
deriving DecidableEq, Repr

/-- The affiliations table, with column-presence flags for `pub_id` and
`times_cited`. -/
structure AffTable : Type where
  hasPubId : Bool
  hasTimesCited : Bool
  rows : List AffRow
deriving DecidableEq, Repr

/-- Placeholder for the authors/funders/investigators tables, which the
loader passes through untouched. -/
abbrev MiscTable : Type := List String

/-! ## Enrichment join (`src/data_loader.py` lines 85-106)

`df_affiliations.merge(citation_df, left_on='pub_id', right_on='id',
how='left', suffixes=('', '_from_main'))` followed by the unconditional
overwrite `df_affiliations['times_cited'] = df_affiliations['times_cited_from_main']`
when the suffix column exists (it exists exactly when the affiliations table
already carried a `times_cited` column).  In either branch each output row's
`times_cited` is the matched publication's value, or missing (NaN) when no
publication matches. -/

/-- Pandas left merge of `citation_df = df_aurin_main[['id','times_cited']]`
into the affiliation rows on `pub_id = id`: each affiliation row is repeated
once per matching publication row (in publication order) carrying that
publication's `times_cited`; a row with no match is kept once with a missing
value. -/
def left_merge_times_cited (pubs : List PubRow) : List AffRow → List AffRow
  | [] => []
  | a :: as =>
    (match pubs.filter (fun p => p.id == a.pub_id) with
     | [] => [{ a with times_cited := none }]
     | ms => ms.map (fun p => { a with times_cited := p.times_cited })) ++
    left_merge_times_cited pubs as

/-- The guard of the enrichment join (src/data_loader.py lines 87-88):
both tables present and non-empty, `pub_id` on the affiliations side,
`id` and `times_cited` on the publications side. -/
def enrich_cond : Option PubTable → Option AffTable → Bool
  | some p, some a =>
    !a.rows.isEmpty && !p.rows.isEmpty && a.hasPubId && p.hasId && p.hasTimesCited
  | _, _ => false

/-- The enrichment step of `_load_dimensions_data`: when the guard holds the
affiliations table's `times_cited` column is (re)filled from the left merge;
otherwise the affiliations table passes through unchanged. -/
def enrich_affiliations (m : Option PubTable) (af : Option AffTable) : Option AffTable :=
  if enrich_cond m af then
    match m, af with
    | some p, some a =>
      some { hasPubId := true, hasTimesCited := true,
             rows := left_merge_times_cited p.rows a.rows }
    | _, af => af
  else af

/-- Rows of an optional affiliations table (`none` has no rows). -/
def optAffRows : Option AffTable → List AffRow
  | none => []
  | some t => t.rows

/-! ## The loader (`src/data_loader.py`, `_load_dimensions_data`)

The external collaborator (dimcli login + query + the five `as_dataframe*`
calls) is a parameter: one invocation either yields the five raw tables or
raises an exception carrying a message.  The loader result records the
returned five-tuple, the messages passed to `st.error`, and how many
collaborator invocations (network interactions) were made. -/

/-- Outcome of one collaborator invocation. -/
inductive CollabResult : Type where
  | ok : Option PubTable → Option MiscTable → Option AffTable →
         Option MiscTable → Option MiscTable → CollabResult
  | exn : String → CollabResult

/-- The external collaborator, as a function of (api_key, endpoint, query). -/
abbrev Collaborator : Type := String → String → String → CollabResult

/-- The five-tuple returned by the loader. -/
abbrev LoadTuple : Type :=
  Option PubTable × Option MiscTable × Option AffTable × Option MiscTable × Option MiscTable

/-- Result of one (uncached) loader call. -/
structure LoadResult : Type where
  tuple : LoadTuple
  errors : List String
  netCalls : Nat
deriving DecidableEq, Repr

/-- The all-absent five-tuple `(None, None, None, None, None)`. -/
def allNone : LoadTuple := (none, none, none, none, none)

/-- Model of `_load_dimensions_data` (src/data_loader.py lines 57-118):
validate the key (returning all-`none` with an error and no network call on
failure), invoke the collaborator once, enrich the affiliations table, and on
an exception classify its message and return all-`none`. -/
def load_dimensions_data (collab : Collaborator) (api_key endpoint query : String) :
    LoadResult :=
  if validate_api_key api_key = false then
    { tuple := allNone,
      errors := ["Please enter your Dimensions API key in the sidebar to load data."],
      netCalls := 0 }
  else
    match collab api_key endpoint query with
    | .ok m au af fu inv =>
      { tuple := (m, au, enrich_affiliations m af, fu, inv), errors := [], netCalls := 1 }
    | .exn msg =>
      { tuple := allNone, errors := [report_error msg], netCalls := 1 }

/-! ## Memoization

Modelled from the spec: the `@st.cache_data` decorator on
`_load_dimensions_data` (src/data_loader.py line 57) is provided by the
streamlit library, whose code is not part of this repository; per the spec's
§4.1 it memoizes the returned five-tuple in an unbounded process-lifetime
table keyed by the exact `(api_key, endpoint, query)` argument triple, and a
hit returns the stored tuple without running the underlying function. -/

/-- The memo table of `st.cache_data`, keyed by the argument triple. -/
abbrev Cache : Type := List ((String × String × String) × LoadTuple)

/-- Observable outcome of one call to the cached loader: the returned tuple,
the memo table afterwards, how many times the underlying (uncached) function
ran, and how many collaborator invocations were made. -/
structure CachedCall : Type where
  value : LoadTuple
  cache : Cache
  underlyingRuns : Nat
  netCalls : Nat

/-- One call to the `@st.cache_data`-wrapped loader. -/
def cached_load_dimensions_data (collab : Collaborator) (cache : Cache)
    (api_key endpoint query : String) : CachedCall :=
  match cache.find? (fun e => e.1 == (api_key, endpoint, query)) with
  | some e => { value := e.2, cache := cache, underlyingRuns := 0, netCalls := 0 }
  | none =>
    let r := load_dimensions_data collab api_key endpoint query
    { value := r.tuple, cache := ((api_key, endpoint, query), r.tuple) :: cache,
      underlyingRuns := 1, netCalls := r.netCalls }

/-! ## The monolithic app's loader (`src/streamlit_app.py`, `load_aurin_data`)

The second loader variant, at src/streamlit_app.py lines 108-142: it guards
only with `if not api_key:` (Python truthiness, i.e. emptiness — no `strip`),
then logs in and issues the fixed query against the fixed endpoint, returns
the five tables with no enrichment join, and classifies exceptions with the
same `except` chain as `_load_dimensions_data`. -/

/-- The fixed endpoint of `load_aurin_data` (src/streamlit_app.py line 116). -/
def aurin_endpoint : String := "https://app.dimensions.ai"

/-- The fixed publications query of `load_aurin_data`
(src/streamlit_app.py lines 121-124, whitespace normalised; its exact text
plays no role in any claim, only its fixedness does). -/
def aurin_query : String :=
  "search publications for \"\\\"Australian Urban Research Infrastructure Network\\\"\" return publications[id+title+authors+pages+type+volume+issue+journal+times_cited+date+date_online]"

/-- Model of `load_aurin_data` (src/streamlit_app.py lines 108-142): the
guard rejects only the empty credential; any non-empty credential — also a
whitespace-only one — reaches `dimcli.login` and the query. -/
def load_aurin_data (collab : Collaborator) (api_key : String) : LoadResult :=
  if api_key.toList.isEmpty then
    { tuple := allNone,
      errors := ["Please enter your Dimensions API key in the sidebar to load data."],
      netCalls := 0 }
  else
    match collab api_key aurin_endpoint aurin_query with
    | .ok m au af fu inv =>
      { tuple := (m, au, af, fu, inv), errors := [], netCalls := 1 }
    | .exn msg =>
      { tuple := allNone, errors := [report_error msg], netCalls := 1 }

/-! ## Top cited articles (`src/components/top_cited_articles.py` line 32)

`self.data.nlargest(self.top_n, 'times_cited')`: pandas `nlargest` with the
default `keep='first'` drops rows whose value in the column is missing (NaN),
orders the remaining rows by the column descending with ties broken by
original row order, and returns the first `n`. -/

/-- Model of `DataFrame.nlargest(n, 'times_cited')`. -/
def top_cited_articles (n : Nat) (rows : List PubRow) : List PubRow :=
  (insertionSortDescBy (fun r => r.times_cited.getD 0)
    (rows.filter (fun r => r.times_cited.isSome))).take n

/-! ## Most recent papers (`src/components/recent_papers.py` lines 32-40)

The component copies the table, coerces the `date` column
(`pd.to_datetime(..., errors='coerce')`: unparseable dates become NaT), then
`sort_values(by='date', ascending=False)` (the default `na_position='last'`
places NaT rows after every dated row) and takes the first `n`.  The
permissive parser is a parameter `parse`; a failed parse is `none`. -/

/-- Model of `sort_values(by='date', ascending=False)` on the coerced date
column: dated rows sorted descending (stably), NaT rows after them. -/
def sort_values_date_desc (parse : String → Option Int) (rows : List PubRow) :
    List PubRow :=
  insertionSortDescBy (fun r => (parse r.date).getD 0)
      (rows.filter (fun r => (parse r.date).isSome))
    ++ rows.filter (fun r => (parse r.date).isNone)

/-- Model of the recent-papers selection: coerce, sort descending, head `n`. -/
def recent_papers (parse : String → Option Int) (n : Nat) (rows : List PubRow) :
    List PubRow :=
  (sort_values_date_desc parse rows).take n

/-! ## Organisation rollup (`src/components/affiliated_organisations.py` lines 34-56)

Group by `(aff_name, aff_country)`; `researcher_id: 'nunique'` counts the
distinct researcher identifiers of each group; when the table carries a
`times_cited` column, `groupby(['aff_name','aff_country','pub_id'])
['times_cited'].first()` takes one citation value per distinct
(organisation, publication) and the per-organisation sum of those values is
merged in (`fillna(0)`); finally
`sort_values('researcher_count', ascending=False)`. -/

/-- One row of the rolled-up `org_metrics` frame. -/
structure OrgGroup : Type where
  aff_name : String
  aff_country : String
  researcher_count : Nat
  times_cited : Int
deriving DecidableEq, Repr

/-- The rows of one `(aff_name, aff_country)` group. -/
def group_rows (affs : List AffRow) (k : String × String) : List AffRow :=
  affs.filter (fun r => r.aff_name == k.1 && r.aff_country == k.2)

/-- Model of `GroupBy.first()` on the `times_cited` column: the first value of the
group that is not missing, or missing when all are. -/
def first_some_tc : List AffRow → Option Int
  | [] => none
  | r :: rs =>
    match r.times_cited with
    | some v => some v
    | none => first_some_tc rs

/-- Per-organisation citation total: one `first()` value per distinct
`pub_id` of the group, summed with missing values contributing nothing
(pandas `sum` skips NaN; `fillna(0)` keeps absent totals at zero). -/
def org_citations (affs : List AffRow) (k : String × String) : Int :=
  (((group_rows affs k).map (fun r => r.pub_id)).dedup.map
    (fun p => (first_some_tc ((group_rows affs k).filter
      (fun r => r.pub_id == p))).getD 0)).sum

/-- Model of the `org_metrics` computation of
`AffiliatedOrganisationsComponent.render`: one group per distinct
`(aff_name, aff_country)` pair, with the distinct-researcher count and (when
the `times_cited` column is present) the per-organisation citation total,
finally sorted by researcher count descending. -/
def org_metrics (t : AffTable) : List OrgGroup :=
  insertionSortDescBy (fun g => (g.researcher_count : Int))
    (((t.rows.map (fun r => (r.aff_name, r.aff_country))).dedup).map (fun k =>
      { aff_name := k.1, aff_country := k.2,
        researcher_count :=
          ((group_rows t.rows k).map (fun r => r.researcher_id)).dedup.length,
        times_cited := if t.hasTimesCited then org_citations t.rows k else 0 }))

/-! ## Date filtering in the monolithic app (`src/streamlit_app.py` lines 159-162)

`df_aurin_main['date'] = pd.to_datetime(df_aurin_main['date'], errors='coerce')`
assigns the coerced column back into the loaded DataFrame itself (no copy),
then the rows with `date >= six_months_ago` are selected and sorted
descending.  A date cell is either the raw string delivered by the load step
or a parsed timestamp (NaT = `ts none`). -/

/-- A cell of the `date` column: raw string as loaded, or parsed datetime. -/
inductive DateCell : Type where
  | raw : String → DateCell
  | ts : Option Int → DateCell
deriving DecidableEq, Repr

/-- Value of a date cell under `pd.to_datetime(..., errors='coerce')`. -/
def cellParse (parse : String → Option Int) : DateCell → Option Int
  | .raw s => parse s
  | .ts t => t

/-- Model of src/streamlit_app.py lines 159-162: first component is the
`date` column of `df_aurin_main` after the step (the in-place coercion),
second is the date column of the selected last-6-months rows (NaT compares
false against the cutoff and is excluded). -/
def app_six_month_filter (parse : String → Option Int) (cutoff : Int)
    (mainDates : List DateCell) : List DateCell × List DateCell :=
  let coerced := mainDates.map (fun c => DateCell.ts (cellParse parse c))
  (coerced,
   insertionSortDescBy
     (fun c => match c with | .ts (some t) => t | _ => 0)
     (coerced.filter (fun c => match c with | .ts (some t) => cutoff ≤ t | _ => false)))

/-! ## Claim theorems -/

/-- The `data_loader.py` variant does implement the blank-credential
precondition: for every credential that is empty or consists only of
whitespace, `_load_dimensions_data` returns the all-absent five-tuple with no
collaborator invocation, reporting only the local precondition message. -/
theorem load_dimensions_blank_credential (api_key : String)
    (h : api_key.toList.all pyIsSpace = true) (collab : Collaborator)
    (endpoint query : String) :
    load_dimensions_data collab api_key endpoint query =
      { tuple := allNone,
        errors := ["Please enter your Dimensions API key in the sidebar to load data."],
        netCalls := 0 } := by
  unfold load_dimensions_data
  rw [validate_api_key_of_all_space api_key h]
  simp

/-- C2 (the code evaluated at the failing input): the claim's cited loader
`load_aurin_data` (src/streamlit_app.py lines 108-142) guards only with
`if not api_key:`, so the whitespace-only credential of the spec's scenario
passes the guard and the collaborator is invoked — a login and a query are
issued (one network interaction, and no precondition message) — whereas the
other cited loader, `_load_dimensions_data` (src/data_loader.py), rejects
the same credential with the all-absent five-tuple and zero network calls,
exactly as the claim and the spec's scenario require. -/
theorem C2_whitespace_credential_network_call :
    validate_api_key "   " = false ∧
    (load_aurin_data (fun _ _ _ => CollabResult.ok none none none none none) "   ").netCalls = 1 ∧
    (load_aurin_data (fun _ _ _ => CollabResult.ok none none none none none) "   ").errors = [] ∧
    load_dimensions_data (fun _ _ _ => CollabResult.ok none none none none none)
        "   " aurin_endpoint aurin_query =
      { tuple := allNone,
        errors := ["Please enter your Dimensions API key in the sidebar to load data."],
        netCalls := 0 } := by
  refine ⟨by decide, by decide, by decide, ?_⟩
  exact load_dimensions_blank_credential "   " (by decide)
    (fun _ _ _ => CollabResult.ok none none none none none) aurin_endpoint aurin_query

/-- C3: two sequential calls to the cached loader with an identical
(credential, endpoint, query) triple, starting from a memo with no entry for
that triple, run the underlying loader exactly once in total; the second call
performs no network call and returns the tuple the first call computed. -/
theorem C3_memoized_single_fetch (collab : Collaborator) (cache : Cache)
    (api_key endpoint query : String)
    (h : cache.find? (fun e => e.1 == (api_key, endpoint, query)) = none) :
    (cached_load_dimensions_data collab cache api_key endpoint query).underlyingRuns +
      (cached_load_dimensions_data collab
        (cached_load_dimensions_data collab cache api_key endpoint query).cache
        api_key endpoint query).underlyingRuns = 1 ∧
    (cached_load_dimensions_data collab
      (cached_load_dimensions_data collab cache api_key endpoint query).cache
      api_key endpoint query).netCalls = 0 ∧
    (cached_load_dimensions_data collab
      (cached_load_dimensions_data collab cache api_key endpoint query).cache
      api_key endpoint query).value =
      (cached_load_dimensions_data collab cache api_key endpoint query).value := by
  unfold cached_load_dimensions_data
  rw [h]
  simp [List.find?]

/-- Witness for C3 with an empty memo and a collaborator returning no data. -/
theorem C3_memoized_single_fetch_witness :
    (([] : Cache).find? (fun e => e.1 == ("key", "ep", "q")) = none) ∧
    ((cached_load_dimensions_data (fun _ _ _ => CollabResult.ok none none none none none)
        [] "key" "ep" "q").underlyingRuns +
      (cached_load_dimensions_data (fun _ _ _ => CollabResult.ok none none none none none)
        (cached_load_dimensions_data (fun _ _ _ => CollabResult.ok none none none none none)
          [] "key" "ep" "q").cache "key" "ep" "q").underlyingRuns = 1 ∧
    (cached_load_dimensions_data (fun _ _ _ => CollabResult.ok none none none none none)
      (cached_load_dimensions_data (fun _ _ _ => CollabResult.ok none none none none none)
        [] "key" "ep" "q").cache "key" "ep" "q").netCalls = 0 ∧
    (cached_load_dimensions_data (fun _ _ _ => CollabResult.ok none none none none none)
      (cached_load_dimensions_data (fun _ _ _ => CollabResult.ok none none none none none)
        [] "key" "ep" "q").cache "key" "ep" "q").value =
      (cached_load_dimensions_data (fun _ _ _ => CollabResult.ok none none none none none)
        [] "key" "ep" "q").value) :=
  ⟨rfl, C3_memoized_single_fetch (fun _ _ _ => CollabResult.ok none none none none none)
    [] "key" "ep" "q" rfl⟩

/-- Formalisation of the claim's (and spec's) own wording for the
authentication bucket, for comparison with the code: the message "mentions
authentication/authorization". -/
def spec_mentions_auth (msg : String) : Bool :=
  strContains (pyLower msg) "authentication" || strContains (pyLower msg) "authorization"

/-- Counterexample to C4 as stated: the message "Authorization denied"
mentions authorization, yet the code's classification (which tests for the
substrings "authentication"/"unauthorized") files it in the unclassified
bucket and reports the generic message, not the authentication one. -/
theorem C4_counterexample :
    spec_mentions_auth "Authorization denied" = true ∧
    classify_error "Authorization denied" = ErrClass.other ∧
    (load_dimensions_data (fun _ _ _ => CollabResult.exn "Authorization denied")
        "k" "e" "q").errors = ["❌ Error loading data: Authorization denied"] ∧
    (load_dimensions_data (fun _ _ _ => CollabResult.exn "Authorization denied")
        "k" "e" "q").errors ≠ ["❌ Authentication failed. Please check your API key."] := by
  refine ⟨by decide, by decide, by decide, by decide⟩

/-- C4 (amended): on any exception from the collaborator the loader does not
propagate it: it returns the all-absent five-tuple after the single
collaborator invocation and reports exactly one message — the authentication
message when the lowercased exception text contains "authentication" or
"unauthorized", else the connectivity message when it contains "connection"
or "timeout", else the unclassified message carrying the text. -/
theorem C4_exception_classified (collab : Collaborator)
    (api_key endpoint query msg : String)
    (hv : validate_api_key api_key = true)
    (hc : collab api_key endpoint query = CollabResult.exn msg) :
    (load_dimensions_data collab api_key endpoint query).tuple = allNone ∧
    (load_dimensions_data collab api_key endpoint query).netCalls = 1 ∧
    (load_dimensions_data collab api_key endpoint query).errors =
      [if strContains (pyLower msg) "authentication"
          || strContains (pyLower msg) "unauthorized" then
        "❌ Authentication failed. Please check your API key."
      else if strContains (pyLower msg) "connection"
          || strContains (pyLower msg) "timeout" then
        "❌ Connection error. Please check your internet connection."
      else "❌ Error loading data: " ++ msg] := by
  unfold load_dimensions_data
  rw [hv, hc]
  refine ⟨by simp, by simp, ?_⟩
  simp only [report_error, classify_error]
  by_cases h1 : (strContains (pyLower msg) "authentication"
      || strContains (pyLower msg) "unauthorized") = true
  · simp [h1]
  · by_cases h2 : (strContains (pyLower msg) "connection"
        || strContains (pyLower msg) "timeout") = true
    · simp [h1, h2]
    · simp [h1, h2]

/-- Witness for C4 (amended) at a concrete unclassifiable exception. -/
theorem C4_exception_classified_witness :
    validate_api_key "k" = true ∧
    ((load_dimensions_data (fun _ _ _ => CollabResult.exn "boom") "k" "e" "q").tuple = allNone ∧
    (load_dimensions_data (fun _ _ _ => CollabResult.exn "boom") "k" "e" "q").netCalls = 1 ∧
    (load_dimensions_data (fun _ _ _ => CollabResult.exn "boom") "k" "e" "q").errors =
      [if strContains (pyLower "boom") "authentication"
          || strContains (pyLower "boom") "unauthorized" then
        "❌ Authentication failed. Please check your API key."
      else if strContains (pyLower "boom") "connection"
          || strContains (pyLower "boom") "timeout" then
        "❌ Connection error. Please check your internet connection."
      else "❌ Error loading data: " ++ "boom"]) :=
  ⟨by decide, C4_exception_classified (fun _ _ _ => CollabResult.exn "boom")
    "k" "e" "q" "boom" (by decide) rfl⟩

/-- Counterexample to C5 as stated: a collection holding one record with a
missing citation count.  `nlargest` drops the NaN row, so the returned length
is `0`, not `min(N, collection size) = 1`. -/
theorem C5_counterexample :
    (top_cited_articles 1 [{ id := "P1", title := "t", date := "d", times_cited := none }]).length ≠
    min 1 ([{ id := "P1", title := "t", date := "d", times_cited := none }] : List PubRow).length := by
  decide

/-- C5 (amended): the Top-N cited view returns, from the records whose
citation count is present, a list in non-increasing citation order with ties
broken by original order, of length `min(N, number of records with a present
citation count)`; records with a missing citation count are dropped. -/
theorem C5_top_cited_order_and_length (n : Nat) (rows : List PubRow) :
    (top_cited_articles n rows).length =
      min n (rows.filter (fun r => r.times_cited.isSome)).length ∧
    List.Pairwise (fun a b => b.times_cited.getD 0 ≤ a.times_cited.getD 0)
      (top_cited_articles n rows) ∧
    ∀ v : Int, List.Sublist
      ((top_cited_articles n rows).filter (fun r => r.times_cited == some v))
      (rows.filter (fun r => r.times_cited == some v)) := by
  refine ⟨?_, ?_, ?_⟩
  · unfold top_cited_articles
    rw [List.length_take, length_insertionSortDescBy]
  · exact List.Pairwise.sublist (List.take_sublist _ _)
      (pairwise_insertionSortDescBy _ _)
  · intro v
    have hs : List.Sublist
        ((top_cited_articles n rows).filter (fun r => r.times_cited == some v))
        ((insertionSortDescBy (fun r => r.times_cited.getD 0)
          (rows.filter (fun r => r.times_cited.isSome))).filter
            (fun r => r.times_cited == some v)) :=
      List.Sublist.filter _ (List.take_sublist _ _)
    have hcong : (insertionSortDescBy (fun r => r.times_cited.getD 0)
        (rows.filter (fun r => r.times_cited.isSome))).filter
          (fun r => r.times_cited == some v) =
        (insertionSortDescBy (fun r => r.times_cited.getD 0)
          (rows.filter (fun r => r.times_cited.isSome))).filter
          (fun r => r.times_cited.getD 0 == v) := by
      apply List.filter_congr
      intro r hr
      have hm : r ∈ rows.filter (fun r => r.times_cited.isSome) :=
        (mem_insertionSortDescBy _ r _).mp hr
      have hsome : r.times_cited.isSome = true := (List.mem_filter.mp hm).2
      cases hv : r.times_cited with
      | none => rw [hv] at hsome; cases hsome
      | some w => simp [hv]
    rw [hcong, filter_insertionSortDescBy, List.filter_filter] at hs
    have hback : rows.filter
        (fun a => (a.times_cited.getD 0 == v) && a.times_cited.isSome) =
        rows.filter (fun r => r.times_cited == some v) := by
      apply List.filter_congr
      intro r _
      cases hv : r.times_cited with
      | none => simp [hv]
      | some w => simp [hv]
    rw [hback] at hs
    exact hs

/-- C7: the most-recent selection (coerce dates, where an unparseable date
becomes missing; sort descending with missing dates last; take the first N)
yields a list in which every record whose date parses comes before every
record whose date does not, and the parsed dates are non-increasing. -/
theorem C7_recent_papers_order (parse : String → Option Int) (n : Nat)
    (rows : List PubRow) :
    List.Pairwise (fun a b =>
      ((parse b.date).isSome = true → (parse a.date).isSome = true) ∧
      (∀ ta tb : Int, parse a.date = some ta → parse b.date = some tb → tb ≤ ta))
      (recent_papers parse n rows) := by
  refine List.Pairwise.sublist (List.take_sublist _ _) ?_
  unfold sort_values_date_desc
  rw [List.pairwise_append]
  refine ⟨?_, ?_, ?_⟩
  · refine List.Pairwise.imp_of_mem ?_
      (pairwise_insertionSortDescBy (fun r => (parse r.date).getD 0) _)
    intro a b ha _ hk
    have hma : a ∈ rows.filter (fun r => (parse r.date).isSome) :=
      (mem_insertionSortDescBy _ a _).mp ha
    have hsa : (parse a.date).isSome = true := (List.mem_filter.mp hma).2
    refine ⟨fun _ => hsa, fun ta tb hta htb => ?_⟩
    have hk' : (parse b.date).getD 0 ≤ (parse a.date).getD 0 := hk
    rw [hta, htb] at hk'
    simpa using hk'
  · apply List.pairwise_of_forall_mem_list
    intro a _ b hb
    have hbn : (parse b.date).isNone = true := (List.mem_filter.mp hb).2
    refine ⟨fun hbs => ?_, fun ta tb _ htb => ?_⟩
    · rw [Option.isNone_iff_eq_none.mp hbn] at hbs; cases hbs
    · rw [Option.isNone_iff_eq_none.mp hbn] at htb; cases htb
  · intro a _ b hb
    have hbn : (parse b.date).isNone = true := (List.mem_filter.mp hb).2
    refine ⟨fun hbs => ?_, fun ta tb _ htb => ?_⟩
    · rw [Option.isNone_iff_eq_none.mp hbn] at hbs; cases hbs
    · rw [Option.isNone_iff_eq_none.mp hbn] at htb; cases htb

theorem filter_eq_of_find?_nodup (pubs : List PubRow) (k : String)
    (hnd : (pubs.map (fun p => p.id)).Nodup) :
    pubs.filter (fun p => p.id == k) =
      (match pubs.find? (fun p => p.id == k) with
       | some p => [p]
       | none => []) := by
  induction pubs with
  | nil => rfl
  | cons p ps ih =>
    have hnd' : p.id ∉ ps.map (fun q => q.id) ∧ (ps.map (fun q => q.id)).Nodup := by
      rw [List.map_cons] at hnd
      exact List.nodup_cons.mp hnd
    by_cases h : p.id = k
    · have hps : ps.filter (fun q => q.id == k) = [] := by
        rw [List.filter_eq_nil_iff]
        intro q hq hqk
        refine hnd'.1 ?_
        rw [h, ← beq_iff_eq.mp hqk]
        exact List.mem_map_of_mem _ hq
      rw [List.filter_cons_of_pos (by simpa using h),
        List.find?_cons_of_pos _ (by simpa using h), hps]
    · rw [List.filter_cons_of_neg (by simpa using h),
        List.find?_cons_of_neg _ (by simpa using h)]
      exact ih hnd'.2

theorem left_merge_eq_map_find? (pubs : List PubRow)
    (hnd : (pubs.map (fun p => p.id)).Nodup) :
    ∀ affs : List AffRow, left_merge_times_cited pubs affs =
      affs.map (fun a =>
        match pubs.find? (fun p => p.id == a.pub_id) with
        | some p => { a with times_cited := p.times_cited }
        | none => { a with times_cited := none }) := by
  intro affs
  induction affs with
  | nil => rfl
  | cons a as ih =>
    simp only [left_merge_times_cited, List.map_cons]
    rw [filter_eq_of_find?_nodup pubs a.pub_id hnd, ih]
    cases hf : pubs.find? (fun p => p.id == a.pub_id) with
    | none => simp
    | some p => simp

theorem left_merge_no_match_none (pubs : List PubRow) :
    ∀ affs : List AffRow, ∀ e ∈ left_merge_times_cited pubs affs,
      (∀ p ∈ pubs, p.id ≠ e.pub_id) → e.times_cited = none := by
  intro affs
  induction affs with
  | nil => intro e he; simp [left_merge_times_cited] at he
  | cons a as ih =>
    intro e he hnp
    simp only [left_merge_times_cited, List.mem_append] at he
    rcases he with hbr | htail
    · cases hf : pubs.filter (fun p => p.id == a.pub_id) with
      | nil =>
        rw [hf] at hbr
        simp only [List.mem_singleton] at hbr
        subst hbr
        rfl
      | cons m ms =>
        rw [hf] at hbr
        obtain ⟨p, hp, rfl⟩ := List.mem_map.mp hbr
        have hpf : p ∈ pubs.filter (fun q => q.id == a.pub_id) := hf ▸ hp
        have hmem := List.mem_filter.mp hpf
        exact absurd (beq_iff_eq.mp hmem.2) (hnp p hmem.1)
    · exact ih e htail hnp

/-- C1: when both tables are present, non-empty and carry the join keys (and
publication identifiers are unique, so "that publication" is well defined),
the enrichment join gives every affiliation row with a matching publication
that publication's `times_cited`, and every affiliation row without a match a
missing value — never a fabricated zero: each output row either carries the
value of a matching publication or carries `none`. -/
theorem C1_enrichment_join (P : PubTable) (A : AffTable)
    (hPne : P.rows ≠ []) (hAne : A.rows ≠ [])
    (hkA : A.hasPubId = true) (hkI : P.hasId = true) (hkT : P.hasTimesCited = true)
    (hnd : (P.rows.map (fun p => p.id)).Nodup) :
    optAffRows (enrich_affiliations (some P) (some A)) =
      A.rows.map (fun a =>
        match P.rows.find? (fun p => p.id == a.pub_id) with
        | some p => { a with times_cited := p.times_cited }
        | none => { a with times_cited := none }) ∧
    ∀ e ∈ optAffRows (enrich_affiliations (some P) (some A)),
      (∃ p ∈ P.rows, p.id = e.pub_id ∧ e.times_cited = p.times_cited) ∨
      ((∀ p ∈ P.rows, p.id ≠ e.pub_id) ∧ e.times_cited = none) := by
  have hcond : enrich_cond (some P) (some A) = true := by
    simp [enrich_cond, hkA, hkI, hkT, List.isEmpty_iff, hPne, hAne]
  have hE : optAffRows (enrich_affiliations (some P) (some A)) =
      A.rows.map (fun a =>
        match P.rows.find? (fun p => p.id == a.pub_id) with
        | some p => { a with times_cited := p.times_cited }
        | none => { a with times_cited := none }) := by
    unfold enrich_affiliations
    rw [hcond]
    simp only [if_true, optAffRows]
    exact left_merge_eq_map_find? P.rows hnd A.rows
  refine ⟨hE, ?_⟩
  intro e he
  rw [hE] at he
  obtain ⟨a, _, heq⟩ := List.mem_map.mp he
  cases hf : P.rows.find? (fun p => p.id == a.pub_id) with
  | some p =>
    rw [hf] at heq
    subst heq
    left
    refine ⟨p, List.mem_of_find?_eq_some hf, ?_, rfl⟩
    exact beq_iff_eq.mp (List.find?_eq_some.mp hf).1
  | none =>
    rw [hf] at heq
    subst heq
    right
    refine ⟨?_, rfl⟩
    intro p hp hpe
    exact absurd (by simpa using hpe) (List.find?_eq_none.mp hf p hp)

/-- Witness for C1 at the spec's scenario: publications P1 (10 citations) and
P2 (3 citations); affiliations referencing P1 and the unmatched P9. -/
theorem C1_enrichment_join_witness :
    (([{ id := "P1", title := "a", date := "d", times_cited := some 10 }, { id := "P2", title := "b", date := "d", times_cited := some 3 }] : List PubRow) ≠ []) ∧
    (([{ pub_id := "P1", aff_name := "A", aff_country := "AU", researcher_id := "r1", times_cited := none }, { pub_id := "P9", aff_name := "B", aff_country := "AU", researcher_id := "r2", times_cited := none }] : List AffRow) ≠ []) ∧
    optAffRows (enrich_affiliations
        (some { hasId := true, hasTimesCited := true, rows := [{ id := "P1", title := "a", date := "d", times_cited := some 10 }, { id := "P2", title := "b", date := "d", times_cited := some 3 }] })
        (some { hasPubId := true, hasTimesCited := false, rows := [{ pub_id := "P1", aff_name := "A", aff_country := "AU", researcher_id := "r1", times_cited := none }, { pub_id := "P9", aff_name := "B", aff_country := "AU", researcher_id := "r2", times_cited := none }] })) =
      [{ pub_id := "P1", aff_name := "A", aff_country := "AU", researcher_id := "r1", times_cited := some 10 }, { pub_id := "P9", aff_name := "B", aff_country := "AU", researcher_id := "r2", times_cited := none }] := by
  refine ⟨by decide, by decide, ?_⟩
  have h := (C1_enrichment_join
    { hasId := true, hasTimesCited := true, rows := [{ id := "P1", title := "a", date := "d", times_cited := some 10 }, { id := "P2", title := "b", date := "d", times_cited := some 3 }] }
    { hasPubId := true, hasTimesCited := false, rows := [{ pub_id := "P1", aff_name := "A", aff_country := "AU", researcher_id := "r1", times_cited := none }, { pub_id := "P9", aff_name := "B", aff_country := "AU", researcher_id := "r2", times_cited := none }] }
    (by decide) (by decide) rfl rfl rfl (by decide)).1
  rw [h]
  decide

/-- C8: when the fetched publications or affiliations table is absent or
empty, or any required join column (`pub_id` on the affiliations side, `id`
or `times_cited` on the publications side) is missing — i.e. the guard
`enrich_cond` transcribed from src/data_loader.py lines 87-88 is false — the
loader returns the affiliations table exactly as fetched, with no error
reported (the success path with an empty error list). -/
theorem C8_passthrough_unmodified (collab : Collaborator)
    (api_key endpoint query : String)
    (m : Option PubTable) (au : Option MiscTable) (af : Option AffTable)
    (fu inv : Option MiscTable)
    (hv : validate_api_key api_key = true)
    (hc : collab api_key endpoint query = CollabResult.ok m au af fu inv)
    (hj : enrich_cond m af = false) :
    load_dimensions_data collab api_key endpoint query =
      { tuple := (m, au, af, fu, inv), errors := [], netCalls := 1 } := by
  unfold load_dimensions_data enrich_affiliations
  rw [hv, hc]
  simp [hj]

/-- Witness for C8: the publications table lacks the `times_cited` column, so
the non-empty affiliations table passes through unmodified and no error is
reported. -/
theorem C8_passthrough_unmodified_witness :
    validate_api_key "k" = true ∧
    enrich_cond
      (some { hasId := true, hasTimesCited := false, rows := [{ id := "P1", title := "a", date := "d", times_cited := some 10 }] })
      (some { hasPubId := true, hasTimesCited := false, rows := [{ pub_id := "P1", aff_name := "A", aff_country := "AU", researcher_id := "r1", times_cited := none }] }) = false ∧
    load_dimensions_data
      (fun _ _ _ => CollabResult.ok
        (some { hasId := true, hasTimesCited := false, rows := [{ id := "P1", title := "a", date := "d", times_cited := some 10 }] })
        none
        (some { hasPubId := true, hasTimesCited := false, rows := [{ pub_id := "P1", aff_name := "A", aff_country := "AU", researcher_id := "r1", times_cited := none }] })
        none none)
      "k" "e" "q" =
      { tuple := (some { hasId := true, hasTimesCited := false, rows := [{ id := "P1", title := "a", date := "d", times_cited := some 10 }] },
          none,
          some { hasPubId := true, hasTimesCited := false, rows := [{ pub_id := "P1", aff_name := "A", aff_country := "AU", researcher_id := "r1", times_cited := none }] },
          none, none),
        errors := [], netCalls := 1 } :=
  ⟨by decide, by decide,
   C8_passthrough_unmodified _ "k" "e" "q" _ _ _ _ _ (by decide) rfl (by decide)⟩

theorem left_merge_map_tc (pubs : List PubRow) (g : AffRow → Option Int) :
    ∀ affs : List AffRow,
      left_merge_times_cited pubs (affs.map (fun a => { a with times_cited := g a })) =
        left_merge_times_cited pubs affs := by
  intro affs
  induction affs with
  | nil => rfl
  | cons a as ih =>
    simp only [List.map_cons, left_merge_times_cited]
    rw [ih]

/-- C10: when the enrichment join runs on an affiliations table that already
carries a `times_cited` column, the pre-existing values are irrelevant — the
enriched result is unchanged under any rewriting of the input rows'
`times_cited` — and every output row whose `pub_id` matches no publication
carries a missing value, never the original one. -/
theorem C10_preexisting_times_cited_replaced (P : PubTable) (A : AffTable)
    (g : AffRow → Option Int)
    (hPne : P.rows ≠ []) (hAne : A.rows ≠ [])
    (hkA : A.hasPubId = true) (hkI : P.hasId = true) (hkT : P.hasTimesCited = true)
    (hpre : A.hasTimesCited = true) :
    enrich_affiliations (some P)
        (some { hasPubId := A.hasPubId, hasTimesCited := A.hasTimesCited,
                rows := A.rows.map (fun a => { a with times_cited := g a }) }) =
      enrich_affiliations (some P) (some A) ∧
    ∀ e ∈ optAffRows (enrich_affiliations (some P) (some A)),
      (∀ p ∈ P.rows, p.id ≠ e.pub_id) → e.times_cited = none := by
  have hAne' : A.rows.map (fun a => { a with times_cited := g a }) ≠ [] := by
    intro hnil
    exact hAne (List.map_eq_nil_iff.mp hnil)
  have hcond : enrich_cond (some P) (some A) = true := by
    simp [enrich_cond, hkA, hkI, hkT, List.isEmpty_iff, hPne, hAne]
  have hcond' : enrich_cond (some P)
      (some { hasPubId := A.hasPubId, hasTimesCited := A.hasTimesCited,
              rows := A.rows.map (fun a => { a with times_cited := g a }) }) = true := by
    simp [enrich_cond, hkA, hkI, hkT, List.isEmpty_iff, hPne, hAne']
  constructor
  · unfold enrich_affiliations
    rw [hcond, hcond']
    simp only [if_true]
    rw [left_merge_map_tc]
  · intro e he
    have hE : optAffRows (enrich_affiliations (some P) (some A)) =
        left_merge_times_cited P.rows A.rows := by
      unfold enrich_affiliations
      rw [hcond]
      simp [optAffRows]
    rw [hE] at he
    exact left_merge_no_match_none P.rows A.rows e he

/-- Witness for C10: the affiliation rows carry pre-existing citation values
5 and 7; rewriting them (here to 99) does not change the enriched result, and
the unmatched row comes out with a missing value. -/
theorem C10_preexisting_times_cited_replaced_witness :
    (([{ id := "P1", title := "a", date := "d", times_cited := some 10 }] : List PubRow) ≠ []) ∧
    (([{ pub_id := "P1", aff_name := "A", aff_country := "AU", researcher_id := "r1", times_cited := some 5 }, { pub_id := "P9", aff_name := "B", aff_country := "AU", researcher_id := "r2", times_cited := some 7 }] : List AffRow) ≠ []) ∧
    (enrich_affiliations (some { hasId := true, hasTimesCited := true, rows := [{ id := "P1", title := "a", date := "d", times_cited := some 10 }] })
        (some { hasPubId := true, hasTimesCited := true,
                rows := ([{ pub_id := "P1", aff_name := "A", aff_country := "AU", researcher_id := "r1", times_cited := some 5 }, { pub_id := "P9", aff_name := "B", aff_country := "AU", researcher_id := "r2", times_cited := some 7 }] : List AffRow).map
                  (fun a => { a with times_cited := (fun _ => some 99) a }) }) =
      enrich_affiliations (some { hasId := true, hasTimesCited := true, rows := [{ id := "P1", title := "a", date := "d", times_cited := some 10 }] })
        (some { hasPubId := true, hasTimesCited := true, rows := [{ pub_id := "P1", aff_name := "A", aff_country := "AU", researcher_id := "r1", times_cited := some 5 }, { pub_id := "P9", aff_name := "B", aff_country := "AU", researcher_id := "r2", times_cited := some 7 }] })) ∧
    ∀ e ∈ optAffRows (enrich_affiliations (some { hasId := true, hasTimesCited := true, rows := [{ id := "P1", title := "a", date := "d", times_cited := some 10 }] })
        (some { hasPubId := true, hasTimesCited := true, rows := [{ pub_id := "P1", aff_name := "A", aff_country := "AU", researcher_id := "r1", times_cited := some 5 }, { pub_id := "P9", aff_name := "B", aff_country := "AU", researcher_id := "r2", times_cited := some 7 }] })),
      (∀ p ∈ [({ id := "P1", title := "a", date := "d", times_cited := some 10 } : PubRow)], p.id ≠ e.pub_id) → e.times_cited = none :=
  ⟨by decide, by decide,
   (C10_preexisting_times_cited_replaced
     { hasId := true, hasTimesCited := true, rows := [{ id := "P1", title := "a", date := "d", times_cited := some 10 }] }
     { hasPubId := true, hasTimesCited := true, rows := [{ pub_id := "P1", aff_name := "A", aff_country := "AU", researcher_id := "r1", times_cited := some 5 }, { pub_id := "P9", aff_name := "B", aff_country := "AU", researcher_id := "r2", times_cited := some 7 }] }
     (fun _ => some 99) (by decide) (by decide) rfl rfl rfl rfl).1,
   (C10_preexisting_times_cited_replaced
     { hasId := true, hasTimesCited := true, rows := [{ id := "P1", title := "a", date := "d", times_cited := some 10 }] }
     { hasPubId := true, hasTimesCited := true, rows := [{ pub_id := "P1", aff_name := "A", aff_country := "AU", researcher_id := "r1", times_cited := some 5 }, { pub_id := "P9", aff_name := "B", aff_country := "AU", researcher_id := "r2", times_cited := some 7 }] }
     (fun _ => some 99) (by decide) (by decide) rfl rfl rfl rfl).2⟩

theorem first_some_tc_of_all_none :
    ∀ l : List AffRow, (∀ r ∈ l, r.times_cited = none) → first_some_tc l = none := by
  intro l
  induction l with
  | nil => intro _; rfl
  | cons r rs ih =>
    intro h
    have hr := h r (List.mem_cons_self r rs)
    simp only [first_some_tc, hr]
    exact ih (fun q hq => h q (List.mem_cons_of_mem _ hq))

theorem first_some_tc_const (c : Option Int) :
    ∀ l : List AffRow, (∀ r ∈ l, r.times_cited = c) → l ≠ [] →
      first_some_tc l = c := by
  intro l
  cases l with
  | nil => intro _ h; exact absurd rfl h
  | cons r rs =>
    intro h _
    have hr := h r (List.mem_cons_self r rs)
    cases hc : c with
    | some v =>
      rw [hc] at hr
      simp [first_some_tc, hr]
    | none =>
      rw [hc] at hr
      simp only [first_some_tc, hr]
      exact first_some_tc_of_all_none rs
        (fun q hq => by rw [h q (List.mem_cons_of_mem _ hq), hc])

theorem sum_toFinset_list (l : List String) (f : String → Int) :
    l.toFinset.sum f = (l.dedup.map f).sum := by
  rw [Finset.sum, List.toFinset_val, Multiset.map_coe, Multiset.sum_coe]

theorem org_citations_eq (affs : List AffRow) (k : String × String)
    (f : String → Option Int)
    (hcons : ∀ r ∈ affs, r.times_cited = f r.pub_id) :
    org_citations affs k =
      ((((group_rows affs k).map (fun r => r.pub_id)).dedup).map
        (fun p => (f p).getD 0)).sum := by
  unfold org_citations
  congr 1
  apply List.map_congr_left
  intro p hp
  have hp' : p ∈ (group_rows affs k).map (fun r => r.pub_id) := List.mem_dedup.mp hp
  obtain ⟨r, hr, rfl⟩ := List.mem_map.mp hp'
  have hne : (group_rows affs k).filter (fun q => q.pub_id == r.pub_id) ≠ [] :=
    List.ne_nil_of_mem (List.mem_filter.mpr ⟨hr, by simp⟩)
  have hall : ∀ q ∈ (group_rows affs k).filter (fun q => q.pub_id == r.pub_id),
      q.times_cited = f r.pub_id := by
    intro q hq
    have hqg := List.mem_filter.mp hq
    have hq_affs : q ∈ affs := (List.mem_filter.mp hqg.1).1
    rw [hcons q hq_affs, beq_iff_eq.mp hqg.2]
  rw [first_some_tc_const (f r.pub_id) _ hall hne]

/-- C6: for every affiliations table carrying a `times_cited` column whose
value is a function of the publication (as the enrichment join guarantees),
the organisation rollup groups rows by (organisation name, country) — every
input pair appears and every group comes from the input — reports per group
the number of distinct researcher identifiers (duplicates counted once) and
the sum of citation counts over distinct (organisation, publication) pairs
(a publication contributing several rows to one organisation is summed once,
missing counts contribute zero), and orders the groups by researcher count
descending. -/
theorem C6_org_rollup (t : AffTable) (f : String → Option Int)
    (hcol : t.hasTimesCited = true)
    (hcons : ∀ r ∈ t.rows, r.times_cited = f r.pub_id) :
    (∀ g ∈ org_metrics t,
      g.researcher_count =
        ((group_rows t.rows (g.aff_name, g.aff_country)).map
          (fun r => r.researcher_id)).toFinset.card ∧
      g.times_cited =
        ((group_rows t.rows (g.aff_name, g.aff_country)).map
          (fun r => r.pub_id)).toFinset.sum (fun p => (f p).getD 0) ∧
      (g.aff_name, g.aff_country) ∈ t.rows.map (fun r => (r.aff_name, r.aff_country))) ∧
    (∀ k ∈ t.rows.map (fun r => (r.aff_name, r.aff_country)),
      ∃ g ∈ org_metrics t, g.aff_name = k.1 ∧ g.aff_country = k.2) ∧
    List.Pairwise (fun a b => b.researcher_count ≤ a.researcher_count) (org_metrics t) := by
  refine ⟨?_, ?_, ?_⟩
  · intro g hg
    unfold org_metrics at hg
    have hg' := (mem_insertionSortDescBy _ g _).mp hg
    obtain ⟨k, hk, rfl⟩ := List.mem_map.mp hg'
    refine ⟨?_, ?_, ?_⟩
    · rw [List.card_toFinset]
    · rw [sum_toFinset_list, hcol]
      simp only [if_true]
      exact org_citations_eq t.rows k f hcons
    · exact List.mem_dedup.mp hk
  · intro k hk
    refine ⟨OrgGroup.mk k.1 k.2
      (((group_rows t.rows k).map (fun r => r.researcher_id)).dedup.length)
      (if t.hasTimesCited then org_citations t.rows k else 0), ?_, rfl, rfl⟩
    unfold org_metrics
    exact (mem_insertionSortDescBy _ _ _).mpr
      (List.mem_map_of_mem _ (List.mem_dedup.mpr hk))
  · unfold org_metrics
    refine List.Pairwise.imp ?_ (pairwise_insertionSortDescBy _ _)
    intro a b h
    exact_mod_cast h

/-- Concrete affiliations table for the C6 witness: organisation X with
researcher rows r1, r1, r2 (r1 duplicated), publications p1 (10 citations,
twice) and p2 (3 citations). -/
def c6T : AffTable :=
  { hasPubId := true, hasTimesCited := true,
    rows := [{ pub_id := "p1", aff_name := "X", aff_country := "AU", researcher_id := "r1", times_cited := some 10 }, { pub_id := "p1", aff_name := "X", aff_country := "AU", researcher_id := "r1", times_cited := some 10 }, { pub_id := "p2", aff_name := "X", aff_country := "AU", researcher_id := "r2", times_cited := some 3 }] }

/-- Citation counts per publication for the C6 witness table. -/
def c6f : String → Option Int :=
  fun p => if p == "p1" then some 10 else if p == "p2" then some 3 else none

/-- Witness for C6 at the spec's scenario table (distinct researcher count
for X is 2). -/
theorem C6_org_rollup_witness :
    c6T.hasTimesCited = true ∧
    (∀ r ∈ c6T.rows, r.times_cited = c6f r.pub_id) ∧
    ((∀ g ∈ org_metrics c6T,
      g.researcher_count =
        ((group_rows c6T.rows (g.aff_name, g.aff_country)).map
          (fun r => r.researcher_id)).toFinset.card ∧
      g.times_cited =
        ((group_rows c6T.rows (g.aff_name, g.aff_country)).map
          (fun r => r.pub_id)).toFinset.sum (fun p => (c6f p).getD 0) ∧
      (g.aff_name, g.aff_country) ∈ c6T.rows.map (fun r => (r.aff_name, r.aff_country))) ∧
    (∀ k ∈ c6T.rows.map (fun r => (r.aff_name, r.aff_country)),
      ∃ g ∈ org_metrics c6T, g.aff_name = k.1 ∧ g.aff_country = k.2) ∧
    List.Pairwise (fun a b => b.researcher_count ≤ a.researcher_count) (org_metrics c6T)) :=
  ⟨rfl, by decide, C6_org_rollup c6T c6f rfl (by decide)⟩

/-- C9 (the code evaluated at the failing input): the monolithic app's
last-6-months step (src/streamlit_app.py line 161) assigns the coerced date
column back into the loaded main DataFrame itself instead of a defensive
copy, so after the step the loaded table's date column no longer equals what
the load step delivered — the loaded record is mutated after the load
completes (the component version, src/components/papers_last_6_months.py
lines 34-39, copies first and leaves its input unchanged). -/
theorem C9_app_date_filter_mutates_input :
    (app_six_month_filter (fun s => if s == "2024-01-01" then some 19723 else none) 0
      [DateCell.raw "2024-01-01"]).1 ≠ [DateCell.raw "2024-01-01"] := by
  decide

end Aurin
